import Mathlib

/-!
Shallow embedding of the physics core of the dex-pair visualizer
(`src/lib/physics.ts`, with constants from `src/lib/constants.ts` and the
data model from `src/lib/types.ts`), together with theorems settling the
specification claims about it.

Numbers are modelled as real numbers; `Math.sqrt` is `Real.sqrt`,
`Math.log10 x` is `Real.logb 10 x`, and `Math.random()` is an injected
noise stream `noise : ℕ → ℝ` consumed two values per processed cell, in
order.  The mutable cell array and organ `Map` become a `List Cell` and an
association list `List (String × Organ)` (a JS `Map` iterates its entries
in insertion order and has unique keys); in-place mutation becomes explicit
state passing, with each imperative phase of `stepPhysics` a function from
state to state, sequenced exactly as in the source.
-/

set_option maxHeartbeats 1000000

namespace DexPair

noncomputable section

/-- The `Cell` interface from `src/lib/types.ts`. -/
@[ext]
structure Cell where
  id : String
  chain : String
  pairAddress : String
  label : String
  x : ℝ
  y : ℝ
  vx : ℝ
  vy : ℝ
  radius : ℝ
  targetRadius : ℝ
  color : String
  wobblePhase : ℝ
  wobbleSpeed : ℝ
  born : ℝ
  lastUpdate : ℝ
  liquidity : ℝ

instance : Inhabited Cell :=
  ⟨{ id := "", chain := "", pairAddress := "", label := "", x := 0, y := 0,
     vx := 0, vy := 0, radius := 0, targetRadius := 0, color := "",
     wobblePhase := 0, wobbleSpeed := 0, born := 0, lastUpdate := 0,
     liquidity := 0 }⟩

/-- The `Organ` interface from `src/lib/types.ts`. -/
@[ext]
structure Organ where
  chain : String
  displayName : String
  color : String
  x : ℝ
  y : ℝ
  radius : ℝ
  wobblePhase : ℝ
  cellCount : ℕ

instance : Inhabited Organ :=
  ⟨{ chain := "", displayName := "", color := "", x := 0, y := 0,
     radius := 0, wobblePhase := 0, cellCount := 0 }⟩

/-! Physics constants from `PHYSICS` in `src/lib/constants.ts` and the
wobble factors declared at the top of `src/lib/physics.ts`. -/

def DAMPING : ℝ := 0.88
def BROWNIAN_STRENGTH : ℝ := 0.03
def MIN_CELL_RADIUS : ℝ := 4
def MAX_CELL_RADIUS : ℝ := 20
def DEFAULT_CELL_RADIUS : ℝ := 7
def ORGAN_BASE_RADIUS : ℝ := 40
def ORGAN_GROWTH_PER_CELL : ℝ := 18
def SPATIAL_CELL_SIZE : ℝ := 100
def CELL_WOBBLE_FACTOR : ℝ := 1.25
def ORGAN_OUTER_FACTOR : ℝ := 1.15
def ORGAN_INNER_FACTOR : ℝ := 0.85

/-! ## RadiusMapping (`liquidityToRadius`, `volumeToRadiusMultiplier`) -/

/-- `liquidityToRadius` from `src/lib/physics.ts` (lines 231-241).  The JS
guard `!liquidity || liquidity <= 0` is `liquidity ≤ 0` on real inputs. -/
def liquidityToRadius (liquidity : ℝ) : ℝ :=
  if liquidity ≤ 0 then DEFAULT_CELL_RADIUS
  else
    let log := Real.logb 10 (max liquidity 1)
    let normalized := (log - 2) / 5
    let clamped := max 0 (min 1 normalized)
    MIN_CELL_RADIUS + clamped * (MAX_CELL_RADIUS - MIN_CELL_RADIUS)

/-- `volumeToRadiusMultiplier` from `src/lib/physics.ts` (lines 243-250). -/
def volumeToRadiusMultiplier (volumeUsd : ℝ) : ℝ :=
  if volumeUsd ≤ 0 then 1
  else
    let log := Real.logb 10 (max volumeUsd 1)
    let normalized := (log - 3) / 3
    let clamped := max 0 (min 1 normalized)
    1 + clamped

/-! ## SpatialGrid

The `SpatialGrid` class of `src/lib/physics.ts` keyed by
`floor(x / cellSize), floor(y / cellSize)` with `cellSize =
PHYSICS.SPATIAL_CELL_SIZE`.  A grid value maps each bucket key to the list
of indices (in insertion order) of the cells inserted into that bucket;
`getNeighbors` concatenates the 3×3 block of buckets around the query
cell's bucket, excluding entries whose `id` equals the query cell's. -/

/-- `SpatialGrid.key` (lines 17-21), as a pair of integers. -/
def gridKey (x y : ℝ) : ℤ × ℤ :=
  (⌊x / SPATIAL_CELL_SIZE⌋, ⌊y / SPATIAL_CELL_SIZE⌋)

/-- The grid after `clear()` plus `insert(cell)` for every cell of `s`
(lines 13-28): bucket `k` holds the indices of the cells whose key is `k`,
in insertion order. -/
def buildGrid (s : List Cell) : ℤ × ℤ → List ℕ := fun k =>
  (List.range s.length).filter fun j =>
    gridKey (s.getD j default).x (s.getD j default).y = k

/-- The `(dx, dy)` visit order of the double loop in `getNeighbors`
(lines 34-35): `dx` outer from -1 to 1, `dy` inner from -1 to 1. -/
def OFFSETS : List (ℤ × ℤ) :=
  [(-1, -1), (-1, 0), (-1, 1), (0, -1), (0, 0), (0, 1), (1, -1), (1, 0), (1, 1)]

/-- `SpatialGrid.getNeighbors` (lines 30-45), returning indices into the
current state `s`.  The query bucket is computed from the query cell's
current coordinates; buckets hold references, so their entries' fields are
read from the current state `s`. -/
def neighborIdxs (grid : ℤ × ℤ → List ℕ) (s : List Cell) (c : Cell) : List ℕ :=
  let g := gridKey c.x c.y
  OFFSETS.flatMap fun d =>
    (grid (g.1 + d.1, g.2 + d.2)).filter fun j => (s.getD j default).id ≠ c.id

/-! ## Per-cell update pipeline (`stepPhysics` main loop, lines 122-206) -/

/-- The containment radius of a cell inside its organ (lines 128-131). -/
def containmentRadius (organ : Organ) (c : Cell) : ℝ :=
  max 0 (organ.radius * ORGAN_INNER_FACTOR - c.radius * CELL_WOBBLE_FACTOR)

/-- Distance from a cell's center to an organ's center. -/
def distTo (c : Cell) (o : Organ) : ℝ :=
  Real.sqrt ((c.x - o.x) * (c.x - o.x) + (c.y - o.y) * (c.y - o.y))

/-- Distance between two cells' centers. -/
def cellSep (a b : Cell) : ℝ :=
  Real.sqrt ((a.x - b.x) * (a.x - b.x) + (a.y - b.y) * (a.y - b.y))

/-- Step 1 of the per-cell update (lines 126-154): hard containment clamp
with outward-velocity kill, then the gentle inward pull.  `dxo`, `dyo` and
`distOrgan` are computed once before the clamp and reused, stale, by the
pull — exactly as in the source. -/
def containStage (organ : Organ) (dt : ℝ) (c : Cell) : Cell :=
  let cr := containmentRadius organ c
  let dxo := c.x - organ.x
  let dyo := c.y - organ.y
  let distOrgan := Real.sqrt (dxo * dxo + dyo * dyo) + 0.01
  let c1 :=
    if distOrgan > cr then
      let nx := dxo / distOrgan
      let ny := dyo / distOrgan
      let c' := { c with x := organ.x + nx * cr, y := organ.y + ny * cr }
      let vDot := c'.vx * nx + c'.vy * ny
      if vDot > 0 then
        { c' with vx := c'.vx - nx * vDot, vy := c'.vy - ny * vDot }
      else c'
    else c
  let pullStrength := 0.05 * (distOrgan / (cr + 0.01))
  { c1 with vx := c1.vx + -dxo / distOrgan * pullStrength * dt * 60,
            vy := c1.vy + -dyo / distOrgan * pullStrength * dt * 60 }

/-- Body of the pass-1 repulsion loop for one neighbor (lines 158-175):
positional correction (factor 0.6) plus a velocity nudge (factor 0.3). -/
def repelFrom (c other : Cell) : Cell :=
  let dx := c.x - other.x
  let dy := c.y - other.y
  let dist := Real.sqrt (dx * dx + dy * dy) + 0.01
  let minDist := c.radius * CELL_WOBBLE_FACTOR + other.radius * CELL_WOBBLE_FACTOR + 2
  if dist < minDist then
    let overlap := minDist - dist
    let nx := dx / dist
    let ny := dy / dist
    { c with x := c.x + nx * overlap * 0.6, y := c.y + ny * overlap * 0.6,
             vx := c.vx + nx * overlap * 0.3, vy := c.vy + ny * overlap * 0.3 }
  else c

/-- Step 2 of the per-cell update (lines 156-176): repel the cell from each
of its spatial-grid neighbors in order.  Only the cell itself moves. -/
def repelStage (grid : ℤ × ℤ → List ℕ) (s : List Cell) (c : Cell) : Cell :=
  (neighborIdxs grid s c).foldl (fun acc j => repelFrom acc (s.getD j default)) c

/-- Step 3 (lines 178-180): Brownian noise, consuming two draws. -/
def noiseStage (noise : ℕ → ℝ) (k : ℕ) (c : Cell) : Cell :=
  { c with vx := c.vx + (noise k - 0.5) * BROWNIAN_STRENGTH,
           vy := c.vy + (noise (k + 1) - 0.5) * BROWNIAN_STRENGTH }

/-- Step 4 (lines 182-184): damping. -/
def dampStage (c : Cell) : Cell :=
  { c with vx := c.vx * DAMPING, vy := c.vy * DAMPING }

/-- Step 5 (lines 186-188): Euler integration of position. -/
def integrateStage (dt : ℝ) (c : Cell) : Cell :=
  { c with x := c.x + c.vx * dt * 60, y := c.y + c.vy * dt * 60 }

/-- Step 6 (lines 190-199): post-integration hard clamp (position only).
`cr` is the containment radius computed at the top of the loop body, from
the cell's radius before easing. -/
def reclampStage (organ : Organ) (cr : ℝ) (c : Cell) : Cell :=
  let dxo2 := c.x - organ.x
  let dyo2 := c.y - organ.y
  let distOrgan2 := Real.sqrt (dxo2 * dxo2 + dyo2 * dyo2)
  if distOrgan2 > cr then
    { c with x := organ.x + dxo2 / (distOrgan2 + 0.01) * cr,
             y := organ.y + dyo2 / (distOrgan2 + 0.01) * cr }
  else c

/-- Step 7 (lines 201-202): ease the radius toward its target. -/
def easeStage (c : Cell) : Cell :=
  { c with radius := c.radius + (c.targetRadius - c.radius) * 0.05 }

/-- Step 8 (lines 204-205): advance the wobble phase. -/
def wobbleStage (dt : ℝ) (c : Cell) : Cell :=
  { c with wobblePhase := c.wobblePhase + c.wobbleSpeed * dt }

/-- The whole pass-1 loop body for one cell (lines 122-206), given its
organ.  `s` is the state the neighbor references read from; `k` is the
index of the next unconsumed random draw; `dt` is the capped delta. -/
def updateOneCell (organ : Organ) (grid : ℤ × ℤ → List ℕ) (noise : ℕ → ℝ)
    (k : ℕ) (s : List Cell) (dt : ℝ) (c : Cell) : Cell :=
  let cr := containmentRadius organ c
  wobbleStage dt (easeStage (reclampStage organ cr (integrateStage dt
    (dampStage (noiseStage noise k (repelStage grid s (containStage organ dt c)))))))

/-- One iteration of the pass-1 `for (const cell of cells)` loop, acting on
the pair (current state, next random index).  A cell whose chain has no
organ is skipped entirely (line 124). -/
def pass1Step (organs : List (String × Organ)) (grid : ℤ × ℤ → List ℕ)
    (noise : ℕ → ℝ) (dt : ℝ) (sn : List Cell × ℕ) (i : ℕ) : List Cell × ℕ :=
  let c := sn.1.getD i default
  match List.lookup c.chain organs with
  | none => sn
  | some organ =>
      (sn.1.set i (updateOneCell organ grid noise sn.2 sn.1 dt c), sn.2 + 2)

/-- Pass 1: the main per-cell loop, over the grid built from the incoming
positions (lines 116-206). -/
def pass1 (organs : List (String × Organ)) (grid : ℤ × ℤ → List ℕ)
    (noise : ℕ → ℝ) (dt : ℝ) (s : List Cell) : List Cell :=
  ((List.range s.length).foldl (pass1Step organs grid noise dt) (s, 0)).1

/-- Body of the pass-2 repulsion loop for one neighbor (lines 215-227):
position-only correction with factor 0.55. -/
def repel2From (c other : Cell) : Cell :=
  let dx := c.x - other.x
  let dy := c.y - other.y
  let dist := Real.sqrt (dx * dx + dy * dy) + 0.01
  let minDist := c.radius * CELL_WOBBLE_FACTOR + other.radius * CELL_WOBBLE_FACTOR + 2
  if dist < minDist then
    let overlap := minDist - dist
    let nx := dx / dist
    let ny := dy / dist
    { c with x := c.x + nx * overlap * 0.55, y := c.y + ny * overlap * 0.55 }
  else c

/-- One iteration of the pass-2 loop for the cell at index `i`. -/
def pass2Step (grid : ℤ × ℤ → List ℕ) (s : List Cell) (i : ℕ) : List Cell :=
  let c := s.getD i default
  s.set i ((neighborIdxs grid s c).foldl
    (fun acc j => repel2From acc (s.getD j default)) c)

/-- Pass 2 (lines 208-228): rebuild the grid from the integrated positions,
then run a position-only repulsion cleanup over every cell. -/
def pass2 (s : List Cell) : List Cell :=
  let grid := buildGrid s
  (List.range s.length).foldl (pass2Step grid) s

/-! ## Organ phases (lines 64-114) -/

/-- Recount cells per organ (lines 64-71): reset every count to 0, then
tally each cell into the organ found under its `chain` key. -/
def recount (cells : List Cell) (organs : List (String × Organ)) :
    List (String × Organ) :=
  organs.map fun p =>
    (p.1, { p.2 with cellCount := (cells.filter fun c => c.chain = p.1).length })

/-- Update organ radii from the growth law (lines 73-76). -/
def updateRadii (organs : List (String × Organ)) : List (String × Organ) :=
  organs.map fun p =>
    (p.1, { p.2 with radius :=
      ORGAN_BASE_RADIUS + ORGAN_GROWTH_PER_CELL * Real.sqrt p.2.cellCount })

/-- Centroid gravity (lines 78-92): pull every organ toward the shared
centroid, with the per-step pull capped. -/
def gravity (dt : ℝ) (organs : List (String × Organ)) : List (String × Organ) :=
  let cx := (organs.map fun p => p.2.x).sum / organs.length
  let cy := (organs.map fun p => p.2.y).sum / organs.length
  organs.map fun p =>
    let dx := cx - p.2.x
    let dy := cy - p.2.y
    let dist := Real.sqrt (dx * dx + dy * dy) + 0.01
    let pull := 0.4 * dt * 60
    (p.1, { p.2 with x := p.2.x + dx / dist * min (dist * 0.02) pull,
                     y := p.2.y + dy / dist * min (dist * 0.02) pull })

/-- Body of the organ-organ repulsion double loop for one pair `(i, j)`
(lines 97-112): push both organs apart by half the overlap. -/
def pairStep (l : List (String × Organ)) (ij : ℕ × ℕ) : List (String × Organ) :=
  let a := (l.getD ij.1 default).2
  let b := (l.getD ij.2 default).2
  let dx := a.x - b.x
  let dy := a.y - b.y
  let dist := Real.sqrt (dx * dx + dy * dy) + 0.01
  let minDist := a.radius * ORGAN_OUTER_FACTOR + b.radius * ORGAN_OUTER_FACTOR + 8
  if dist < minDist then
    let overlap := minDist - dist
    let nx := dx / dist
    let ny := dy / dist
    (l.set ij.1 ((l.getD ij.1 default).1,
        { a with x := a.x + nx * overlap * 0.5, y := a.y + ny * overlap * 0.5 })).set
      ij.2 ((l.getD ij.2 default).1,
        { b with x := b.x - nx * overlap * 0.5, y := b.y - ny * overlap * 0.5 })
  else l

/-- The index pairs `(i, j)` with `i < j` visited by the double loop
(lines 95-96), in source order. -/
def organPairs (n : ℕ) : List (ℕ × ℕ) :=
  (List.range n).flatMap fun i =>
    ((List.range n).filter fun j => i < j).map fun j => (i, j)

/-- Organ-organ repulsion (lines 94-114): a single relaxation sweep over
all unordered pairs. -/
def organRepulsion (organs : List (String × Organ)) : List (String × Organ) :=
  (organPairs organs.length).foldl pairStep organs

/-! ## The full step (lines 57-229) -/

/-- All organ phases of `stepPhysics`, in source order: recount, radius
law, centroid gravity, pairwise separation.  `dt` is the raw delta; the
cap is applied here as at line 62. -/
def stepOrgans (cells : List Cell) (organs : List (String × Organ))
    (dt : ℝ) : List (String × Organ) :=
  organRepulsion (gravity (min dt 0.033) (updateRadii (recount cells organs)))

/-- The cell state after pass 1 of `stepPhysics`: the grid is built from
the incoming positions, and the per-cell loop runs against the finalized
organs. -/
def stepCells1 (cells : List Cell) (organs : List (String × Organ))
    (dt : ℝ) (noise : ℕ → ℝ) : List Cell :=
  pass1 (stepOrgans cells organs dt) (buildGrid cells) noise (min dt 0.033) cells

/-- `stepPhysics` (lines 57-229).  The source mutates `cells` and `organs`
in place and returns nothing; here the final (cells, organs) state is the
returned pair. -/
def stepPhysics (cells : List Cell) (organs : List (String × Organ))
    (dt : ℝ) (noise : ℕ → ℝ) : List Cell × List (String × Organ) :=
  (pass2 (stepCells1 cells organs dt noise), stepOrgans cells organs dt)

/-! ## Denominator traces

For the division-safety claim, each phase gets a companion function
listing, in execution order, the denominator of every division the source
actually executes on that phase's inputs (conditional divisions are listed
only when their branch is taken).  `stepDenoms` strings them together with
the same intermediate states `stepPhysics` itself produces. -/

/-- Denominators of the two divisions in `SpatialGrid.key` (lines 18-19),
executed once per `insert` and once per `getNeighbors` call. -/
def keyDenoms : List ℝ := [SPATIAL_CELL_SIZE, SPATIAL_CELL_SIZE]

/-- Denominators of building the grid: one key computation per cell. -/
def buildGridDenoms (s : List Cell) : List ℝ := s.flatMap fun _ => keyDenoms

/-- Denominators of the centroid-gravity phase (lines 79-92): the two
`/= organList.length` divisions, then `dx/dist` and `dy/dist` per organ. -/
def gravityDenoms (organs : List (String × Organ)) : List ℝ :=
  let cx := (organs.map fun p => p.2.x).sum / organs.length
  let cy := (organs.map fun p => p.2.y).sum / organs.length
  (organs.length : ℝ) :: (organs.length : ℝ) ::
    organs.flatMap fun p =>
      let dx := cx - p.2.x
      let dy := cy - p.2.y
      let dist := Real.sqrt (dx * dx + dy * dy) + 0.01
      [dist, dist]

/-- Denominators of one organ-pair separation (lines 97-112): `dx/dist`
and `dy/dist`, executed only when the pair overlaps. -/
def pairStepDenoms (l : List (String × Organ)) (ij : ℕ × ℕ) : List ℝ :=
  let a := (l.getD ij.1 default).2
  let b := (l.getD ij.2 default).2
  let dx := a.x - b.x
  let dy := a.y - b.y
  let dist := Real.sqrt (dx * dx + dy * dy) + 0.01
  let minDist := a.radius * ORGAN_OUTER_FACTOR + b.radius * ORGAN_OUTER_FACTOR + 8
  if dist < minDist then [dist, dist] else []

/-- Denominators of the organ-repulsion double loop, threading the evolving
organ list exactly as the loop does. -/
def organRepulsionDenoms (organs : List (String × Organ)) : List ℝ :=
  ((organPairs organs.length).foldl
    (fun acc ij => (pairStep acc.1 ij, acc.2 ++ pairStepDenoms acc.1 ij))
    (organs, [])).2

/-- Denominators of `repelFrom` for one neighbor (lines 159-174). -/
def repelFromDenoms (c other : Cell) : List ℝ :=
  let dx := c.x - other.x
  let dy := c.y - other.y
  let dist := Real.sqrt (dx * dx + dy * dy) + 0.01
  let minDist := c.radius * CELL_WOBBLE_FACTOR + other.radius * CELL_WOBBLE_FACTOR + 2
  if dist < minDist then [dist, dist] else []

/-- Denominators of the pass-1 repulsion loop (lines 156-176): the
neighbor-query key, then the per-neighbor divisions on the moving cell. -/
def repelStageDenoms (grid : ℤ × ℤ → List ℕ) (s : List Cell) (c : Cell) :
    List ℝ :=
  keyDenoms ++ ((neighborIdxs grid s c).foldl
    (fun acc j => (repelFrom acc.1 (s.getD j default),
      acc.2 ++ repelFromDenoms acc.1 (s.getD j default))) (c, [])).2

/-- Denominators of the containment block (lines 126-154): the clamp's
`dxo/distOrgan` twice when violating, then the pull's division by
`containmentRadius + 0.01` and its two divisions by `distOrgan`. -/
def containStageDenoms (organ : Organ) (c : Cell) : List ℝ :=
  let cr := containmentRadius organ c
  let dxo := c.x - organ.x
  let dyo := c.y - organ.y
  let distOrgan := Real.sqrt (dxo * dxo + dyo * dyo) + 0.01
  (if distOrgan > cr then [distOrgan, distOrgan] else []) ++
    [cr + 0.01, distOrgan, distOrgan]

/-- Denominators of the post-integration re-clamp (lines 190-199): two
divisions by `distOrgan2 + 0.01`, only when violating. -/
def reclampStageDenoms (organ : Organ) (cr : ℝ) (c : Cell) : List ℝ :=
  let dxo2 := c.x - organ.x
  let dyo2 := c.y - organ.y
  let distOrgan2 := Real.sqrt (dxo2 * dxo2 + dyo2 * dyo2)
  if distOrgan2 > cr then [distOrgan2 + 0.01, distOrgan2 + 0.01] else []

/-- Denominators of the whole per-cell update, in execution order, on the
same intermediate cells the update itself produces. -/
def updateOneCellDenoms (organ : Organ) (grid : ℤ × ℤ → List ℕ)
    (noise : ℕ → ℝ) (k : ℕ) (s : List Cell) (dt : ℝ) (c : Cell) : List ℝ :=
  containStageDenoms organ c ++
    repelStageDenoms grid s (containStage organ dt c) ++
    reclampStageDenoms organ (containmentRadius organ c)
      (integrateStage dt (dampStage (noiseStage noise k
        (repelStage grid s (containStage organ dt c)))))

/-- Denominators of pass 1, threading (state, noise index) as the loop
does; skipped cells (no organ) execute no division. -/
def pass1Denoms (organs : List (String × Organ)) (grid : ℤ × ℤ → List ℕ)
    (noise : ℕ → ℝ) (dt : ℝ) (cells : List Cell) : List ℝ :=
  ((List.range cells.length).foldl
    (fun acc i =>
      (pass1Step organs grid noise dt acc.1 i,
        acc.2 ++
          match List.lookup (acc.1.1.getD i default).chain organs with
          | none => []
          | some organ => updateOneCellDenoms organ grid noise acc.1.2 acc.1.1
              dt (acc.1.1.getD i default)))
    ((cells, 0), [])).2

/-- Denominators of `repel2From` for one neighbor (lines 216-223). -/
def repel2FromDenoms (c other : Cell) : List ℝ :=
  let dx := c.x - other.x
  let dy := c.y - other.y
  let dist := Real.sqrt (dx * dx + dy * dy) + 0.01
  let minDist := c.radius * CELL_WOBBLE_FACTOR + other.radius * CELL_WOBBLE_FACTOR + 2
  if dist < minDist then [dist, dist] else []

/-- Denominators of one pass-2 iteration: neighbor-query key plus the
per-neighbor divisions on the moving cell. -/
def pass2StepDenoms (grid : ℤ × ℤ → List ℕ) (s : List Cell) (i : ℕ) : List ℝ :=
  keyDenoms ++ ((neighborIdxs grid s (s.getD i default)).foldl
    (fun acc j => (repel2From acc.1 (s.getD j default),
      acc.2 ++ repel2FromDenoms acc.1 (s.getD j default)))
    (s.getD i default, [])).2

/-- Denominators of pass 2 (lines 208-228): grid rebuild, then the cleanup
loop threading the state as the loop does. -/
def pass2Denoms (s : List Cell) : List ℝ :=
  buildGridDenoms s ++
    ((List.range s.length).foldl
      (fun acc i => (pass2Step (buildGrid s) acc.1 i,
        acc.2 ++ pass2StepDenoms (buildGrid s) acc.1 i))
      (s, [])).2

/-- Every denominator of every division `stepPhysics` executes on the given
input, in execution order. -/
def stepDenoms (cells : List Cell) (organs : List (String × Organ))
    (dt : ℝ) (noise : ℕ → ℝ) : List ℝ :=
  let cappedDt := min dt 0.033
  let organs1 := updateRadii (recount cells organs)
  let organs2 := gravity cappedDt organs1
  let organs3 := organRepulsion organs2
  gravityDenoms organs1 ++ organRepulsionDenoms organs2 ++
    buildGridDenoms cells ++
    pass1Denoms organs3 (buildGrid cells) noise cappedDt cells ++
    pass2Denoms (pass1 organs3 (buildGrid cells) noise cappedDt cells)

/-! ## Projections used to state frame conditions -/

/-- Every `Cell` field `stepPhysics` never writes: everything except
position, velocity, radius and wobble phase. -/
def cellFrame (c : Cell) :
    String × String × String × String × ℝ × String × ℝ × ℝ × ℝ × ℝ :=
  (c.id, c.chain, c.pairAddress, c.label, c.targetRadius, c.color,
   c.wobbleSpeed, c.born, c.lastUpdate, c.liquidity)

/-- Every `Organ` field `stepPhysics` never writes (with the map key):
everything except position, radius and cellCount. -/
def organFrame (p : String × Organ) : String × String × String × String × ℝ :=
  (p.1, p.2.chain, p.2.displayName, p.2.color, p.2.wobblePhase)

/-- Every `Organ` field the gravity and separation phases never write (with
the map key): everything except position. -/
def organFixed (p : String × Organ) :
    String × String × String × String × ℝ × ℝ × ℕ :=
  (p.1, p.2.chain, p.2.displayName, p.2.color, p.2.wobblePhase, p.2.radius,
   p.2.cellCount)

/-! ## Concrete states for witnesses and counterexamples -/

/-- A concrete cell at the origin. -/
def cA : Cell :=
  { id := "a", chain := "X", pairAddress := "", label := "", x := 0, y := 0,
    vx := 0, vy := 0, radius := 5, targetRadius := 5, color := "",
    wobblePhase := 0, wobbleSpeed := 0, born := 0, lastUpdate := 0,
    liquidity := 0 }

/-- A concrete cell 50 units right of `cA` (same grid bucket). -/
def cB : Cell := { cA with id := "b", x := 50 }

/-- A concrete cell exactly coincident with `cA` but with a distinct id. -/
def cQ : Cell := { cA with id := "q" }

/-- A concrete cell of chain "X" placed at (100, 0) with a target radius
far above its current radius. -/
def cC : Cell := { cA with id := "c", x := 100, radius := 4, targetRadius := 20 }

/-- A concrete organ for chain "X" at the origin. -/
def org0 : Organ :=
  { chain := "X", displayName := "X", color := "", x := 0, y := 0,
    radius := 40, wobblePhase := 0, cellCount := 0 }

/-- `org0` after the recount and radius phases with exactly one member
cell: radius `40 + 18 * sqrt 1 = 58`. -/
def org58 : Organ := { org0 with radius := 58, cellCount := 1 }

/-- A constant noise stream whose draws are all 1/2, making every Brownian
increment `(0.5 - 0.5) * strength = 0`. -/
def halfNoise : ℕ → ℝ := fun _ => 1 / 2

/-- The cell `cC` after one step against `org58`: clamped onto the
containment boundary (distance `44.3 * 10000/10001` from the center) and
eased from radius 4 toward target 20. -/
def cF : Cell := { cC with x := 443000 / 10001, radius := 24 / 5 }

end

end DexPair

namespace DexPair

/-! ## Generic list helpers -/

theorem getD_set_self {α : Type*} (l : List α) (i : ℕ) (a d : α)
    (h : i < l.length) : (l.set i a).getD i d = a := by
  induction l generalizing i with
  | nil => simp at h
  | cons hd tl ih =>
      cases i with
      | zero => rfl
      | succ n => exact ih n (by simpa using h)

theorem getD_set_ne {α : Type*} (l : List α) (i j : ℕ) (a d : α)
    (h : i ≠ j) : (l.set i a).getD j d = l.getD j d := by
  induction l generalizing i j with
  | nil => simp
  | cons hd tl ih =>
      cases i with
      | zero =>
          cases j with
          | zero => exact absurd rfl h
          | succ m => rfl
      | succ n =>
          cases j with
          | zero => rfl
          | succ m => exact ih n m (by omega)

theorem map_set_frame {α β : Type*} (f : α → β) (l : List α) (i : ℕ)
    (a d : α) (h : f a = f (l.getD i d)) : (l.set i a).map f = l.map f := by
  induction l generalizing i with
  | nil => simp
  | cons hd tl ih =>
      cases i with
      | zero => simpa using congrArg (· :: tl.map f) h
      | succ n => simpa using ih n (by simpa using h)

theorem foldl_inv {α β : Type*} {F : α → β → α} {P : α → Prop}
    (h : ∀ a b, P a → P (F a b)) :
    ∀ (l : List β) (a : α), P a → P (l.foldl F a) := by
  intro l
  induction l with
  | nil => exact fun a ha => ha
  | cons hd tl ih => exact fun a ha => ih (F a hd) (h a hd ha)

theorem foldl_inv_mem {α β : Type*} {F : α → β → α} {P : α → Prop} :
    ∀ (l : List β), (∀ a b, b ∈ l → P a → P (F a b)) →
      ∀ (a : α), P a → P (l.foldl F a) := by
  intro l
  induction l with
  | nil => exact fun _ a ha => ha
  | cons hd tl ih =>
      intro h a ha
      exact ih (fun a' b hb => h a' b (List.mem_cons_of_mem hd hb))
        (F a hd) (h a hd (List.mem_cons_self hd tl) ha)

theorem getD_map_in {α β : Type*} (f : α → β) (l : List α) (i : ℕ)
    (d : β) (d' : α) (h : i < l.length) :
    (l.map f).getD i d = f (l.getD i d') := by
  induction l generalizing i with
  | nil => simp at h
  | cons hd tl ih =>
      cases i with
      | zero => rfl
      | succ n => exact ih n (by simpa using h)

theorem map_congr_mem {α β : Type*} (l : List α) (f g : α → β)
    (h : ∀ a ∈ l, f a = g a) : l.map f = l.map g := by
  induction l with
  | nil => rfl
  | cons hd tl ih =>
      simp only [List.map_cons, h hd (List.mem_cons_self hd tl)]
      rw [ih fun a ha => h a (List.mem_cons_of_mem hd ha)]

theorem mem_organPairs_lt (n : ℕ) (ij : ℕ × ℕ) (h : ij ∈ organPairs n) :
    ij.1 < ij.2 := by
  unfold organPairs at h
  simp only [List.mem_flatMap, List.mem_map, List.mem_filter,
    List.mem_range, decide_eq_true_eq] at h
  obtain ⟨i, _, j, ⟨_, hij⟩, rfl⟩ := h
  exact hij

/-- **C6.** `liquidityToRadius` returns the default radius for
liquidity ≤ 0, is monotonic non-decreasing on positive liquidity, and its
output always lies in `[MIN_CELL_RADIUS, MAX_CELL_RADIUS]`. -/
theorem c6_liquidityToRadius_props :
    (∀ l : ℝ, l ≤ 0 → liquidityToRadius l = DEFAULT_CELL_RADIUS) ∧
    (∀ a b : ℝ, 0 < a → a ≤ b → liquidityToRadius a ≤ liquidityToRadius b) ∧
    (∀ l : ℝ, MIN_CELL_RADIUS ≤ liquidityToRadius l ∧
      liquidityToRadius l ≤ MAX_CELL_RADIUS) := by
  refine ⟨fun l hl => by simp [liquidityToRadius, hl], ?_, ?_⟩
  · intro a b ha hab
    have ha' : ¬a ≤ 0 := not_le.mpr ha
    have hb' : ¬b ≤ 0 := not_le.mpr (lt_of_lt_of_le ha hab)
    simp only [liquidityToRadius, ha', hb', if_false]
    have hlog : Real.logb 10 (max a 1) ≤ Real.logb 10 (max b 1) := by
      apply Real.logb_le_logb_of_le (by norm_num)
      · exact lt_of_lt_of_le one_pos (le_max_right a 1)
      · exact max_le_max hab le_rfl
    have hclamp : max 0 (min 1 ((Real.logb 10 (max a 1) - 2) / 5)) ≤
        max 0 (min 1 ((Real.logb 10 (max b 1) - 2) / 5)) := by
      gcongr
    rw [MIN_CELL_RADIUS, MAX_CELL_RADIUS]
    nlinarith [hclamp]
  · intro l
    by_cases hl : l ≤ 0
    · simp [liquidityToRadius, hl, MIN_CELL_RADIUS, MAX_CELL_RADIUS,
        DEFAULT_CELL_RADIUS]
      norm_num
    · simp only [liquidityToRadius, hl, if_false]
      set cl := max 0 (min 1 ((Real.logb 10 (max l 1) - 2) / 5)) with hcl
      have h0 : 0 ≤ cl := le_max_left 0 _
      have h1 : cl ≤ 1 := by
        apply max_le (by norm_num)
        exact min_le_left 1 _
      rw [MIN_CELL_RADIUS, MAX_CELL_RADIUS]
      constructor <;> nlinarith

/-- Witness for C6 at concrete inputs. -/
theorem c6_witness :
    liquidityToRadius (-3) = DEFAULT_CELL_RADIUS ∧
    liquidityToRadius 50 ≤ liquidityToRadius 60 ∧
    MIN_CELL_RADIUS ≤ liquidityToRadius 12345 ∧
    liquidityToRadius 12345 ≤ MAX_CELL_RADIUS :=
  ⟨c6_liquidityToRadius_props.1 (-3) (by norm_num),
   c6_liquidityToRadius_props.2.1 50 60 (by norm_num) (by norm_num),
   (c6_liquidityToRadius_props.2.2 12345).1,
   (c6_liquidityToRadius_props.2.2 12345).2⟩

/-- **C7.** `volumeToRadiusMultiplier` returns 1 for volume ≤ 0, is
monotonic non-decreasing over all inputs, is bounded above by 2, and equals
2 for volume ≥ 10^6. -/
theorem c7_volumeMultiplier_props :
    (∀ v : ℝ, v ≤ 0 → volumeToRadiusMultiplier v = 1) ∧
    (∀ a b : ℝ, a ≤ b → volumeToRadiusMultiplier a ≤ volumeToRadiusMultiplier b) ∧
    (∀ v : ℝ, volumeToRadiusMultiplier v ≤ 2) ∧
    (∀ v : ℝ, 1000000 ≤ v → volumeToRadiusMultiplier v = 2) := by
  have hone : ∀ v : ℝ, 1 ≤ volumeToRadiusMultiplier v := by
    intro v
    by_cases hv : v ≤ 0
    · simp [volumeToRadiusMultiplier, hv]
    · simp only [volumeToRadiusMultiplier, hv, if_false]
      have : 0 ≤ max 0 (min 1 ((Real.logb 10 (max v 1) - 3) / 3)) :=
        le_max_left 0 _
      linarith
  refine ⟨fun v hv => by simp [volumeToRadiusMultiplier, hv], ?_, ?_, ?_⟩
  · intro a b hab
    by_cases ha : a ≤ 0
    · rw [show volumeToRadiusMultiplier a = 1 by
        simp [volumeToRadiusMultiplier, ha]]
      exact hone b
    · have hb : ¬b ≤ 0 := fun h => ha (hab.trans h)
      simp only [volumeToRadiusMultiplier, ha, hb, if_false]
      have hlog : Real.logb 10 (max a 1) ≤ Real.logb 10 (max b 1) := by
        apply Real.logb_le_logb_of_le (by norm_num)
        · exact lt_of_lt_of_le one_pos (le_max_right a 1)
        · exact max_le_max hab le_rfl
      gcongr
  · intro v
    by_cases hv : v ≤ 0
    · norm_num [volumeToRadiusMultiplier, hv]
    · simp only [volumeToRadiusMultiplier, hv, if_false]
      have h1 : max 0 (min 1 ((Real.logb 10 (max v 1) - 3) / 3)) ≤ 1 := by
        apply max_le (by norm_num)
        exact min_le_left 1 _
      linarith
  · intro v hv
    have hv0 : ¬v ≤ 0 := by norm_num at hv ⊢; linarith
    simp only [volumeToRadiusMultiplier, hv0, if_false]
    have hmax : max v 1 = v := max_eq_left (by linarith)
    have hlog6 : (6 : ℝ) ≤ Real.logb 10 (max v 1) := by
      rw [hmax]
      have h10 : Real.logb 10 ((10 : ℝ) ^ (6 : ℕ)) = 6 := by
        rw [Real.logb_pow, Real.logb_self_eq_one (by norm_num)]
        norm_num
      calc (6 : ℝ) = Real.logb 10 ((10 : ℝ) ^ (6 : ℕ)) := h10.symm
        _ ≤ Real.logb 10 v := by
            apply Real.logb_le_logb_of_le (by norm_num) (by positivity)
            norm_num; linarith
    have hmin : min 1 ((Real.logb 10 (max v 1) - 3) / 3) = 1 := by
      apply min_eq_left; linarith
    rw [hmin]
    norm_num

/-- Witness for C7 at concrete inputs. -/
theorem c7_witness :
    volumeToRadiusMultiplier 0 = 1 ∧
    volumeToRadiusMultiplier 500 ≤ volumeToRadiusMultiplier 700 ∧
    volumeToRadiusMultiplier 31415 ≤ 2 ∧
    volumeToRadiusMultiplier 2000000 = 2 :=
  ⟨c7_volumeMultiplier_props.1 0 le_rfl,
   c7_volumeMultiplier_props.2.1 500 700 (by norm_num),
   c7_volumeMultiplier_props.2.2.1 31415,
   c7_volumeMultiplier_props.2.2.2 2000000 (by norm_num)⟩

/-! ## Per-stage field lemmas -/

theorem containStage_frame (o : Organ) (dt : ℝ) (c : Cell) :
    cellFrame (containStage o dt c) = cellFrame c := by
  simp only [containStage, cellFrame]
  split_ifs <;> rfl

theorem containStage_radius (o : Organ) (dt : ℝ) (c : Cell) :
    (containStage o dt c).radius = c.radius := by
  simp only [containStage]
  split_ifs <;> rfl

theorem repelFrom_frame (c other : Cell) :
    cellFrame (repelFrom c other) = cellFrame c := by
  simp only [repelFrom, cellFrame]
  split_ifs <;> rfl

theorem repelFrom_radius (c other : Cell) :
    (repelFrom c other).radius = c.radius := by
  simp only [repelFrom]
  split_ifs <;> rfl

theorem repelStage_frame (grid : ℤ × ℤ → List ℕ) (s : List Cell) (c : Cell) :
    cellFrame (repelStage grid s c) = cellFrame c :=
  foldl_inv (P := fun a : Cell => cellFrame a = cellFrame c)
    (F := fun acc j => repelFrom acc (s.getD j default))
    (fun a b ha => (repelFrom_frame a (s.getD b default)).trans ha)
    (neighborIdxs grid s c) c rfl

theorem repelStage_radius (grid : ℤ × ℤ → List ℕ) (s : List Cell) (c : Cell) :
    (repelStage grid s c).radius = c.radius :=
  foldl_inv (P := fun a : Cell => a.radius = c.radius)
    (F := fun acc j => repelFrom acc (s.getD j default))
    (fun a b ha => (repelFrom_radius a (s.getD b default)).trans ha)
    (neighborIdxs grid s c) c rfl

theorem reclampStage_frame (o : Organ) (cr : ℝ) (c : Cell) :
    cellFrame (reclampStage o cr c) = cellFrame c := by
  simp only [reclampStage, cellFrame]
  split_ifs <;> rfl

theorem reclampStage_radius (o : Organ) (cr : ℝ) (c : Cell) :
    (reclampStage o cr c).radius = c.radius := by
  simp only [reclampStage]
  split_ifs <;> rfl

theorem noiseStage_frame (noise : ℕ → ℝ) (k : ℕ) (c : Cell) :
    cellFrame (noiseStage noise k c) = cellFrame c := rfl

theorem dampStage_frame (c : Cell) : cellFrame (dampStage c) = cellFrame c := rfl

theorem integrateStage_frame (dt : ℝ) (c : Cell) :
    cellFrame (integrateStage dt c) = cellFrame c := rfl

theorem easeStage_frame (c : Cell) : cellFrame (easeStage c) = cellFrame c := rfl

theorem wobbleStage_frame (dt : ℝ) (c : Cell) :
    cellFrame (wobbleStage dt c) = cellFrame c := rfl

theorem updateOneCell_frame (o : Organ) (grid : ℤ × ℤ → List ℕ)
    (noise : ℕ → ℝ) (k : ℕ) (s : List Cell) (dt : ℝ) (c : Cell) :
    cellFrame (updateOneCell o grid noise k s dt c) = cellFrame c := by
  unfold updateOneCell
  rw [wobbleStage_frame, easeStage_frame, reclampStage_frame,
    integrateStage_frame, dampStage_frame, noiseStage_frame,
    repelStage_frame, containStage_frame]

theorem updateOneCell_radius (o : Organ) (grid : ℤ × ℤ → List ℕ)
    (noise : ℕ → ℝ) (k : ℕ) (s : List Cell) (dt : ℝ) (c : Cell) :
    (updateOneCell o grid noise k s dt c).radius =
      c.radius + (c.targetRadius - c.radius) * 0.05 := by
  have hr : (reclampStage o (containmentRadius o c) (integrateStage dt
      (dampStage (noiseStage noise k (repelStage grid s
        (containStage o dt c)))))).radius = c.radius := by
    rw [reclampStage_radius]
    show (repelStage grid s (containStage o dt c)).radius = c.radius
    rw [repelStage_radius, containStage_radius]
  have ht : (reclampStage o (containmentRadius o c) (integrateStage dt
      (dampStage (noiseStage noise k (repelStage grid s
        (containStage o dt c)))))).targetRadius = c.targetRadius := by
    have h1 := reclampStage_frame o (containmentRadius o c) (integrateStage dt
      (dampStage (noiseStage noise k (repelStage grid s (containStage o dt c)))))
    have h2 := repelStage_frame grid s (containStage o dt c)
    have h3 := containStage_frame o dt c
    have : cellFrame (reclampStage o (containmentRadius o c) (integrateStage dt
        (dampStage (noiseStage noise k (repelStage grid s
          (containStage o dt c)))))) = cellFrame c := by
      rw [h1, integrateStage_frame, dampStage_frame, noiseStage_frame, h2, h3]
    simpa [cellFrame, Prod.ext_iff] using congrArg (fun t => t.2.2.2.2.1) this
  show (wobbleStage dt (easeStage _)).radius = _
  unfold wobbleStage easeStage
  dsimp only
  rw [hr, ht]

/-! ## C5: spatial grid neighbor queries -/

theorem mem_neighborIdxs_iff (s : List Cell) (c : Cell) (j : ℕ) :
    j ∈ neighborIdxs (buildGrid s) s c ↔
      j < s.length ∧
      |(gridKey (s.getD j default).x (s.getD j default).y).1 -
          (gridKey c.x c.y).1| ≤ 1 ∧
      |(gridKey (s.getD j default).x (s.getD j default).y).2 -
          (gridKey c.x c.y).2| ≤ 1 ∧
      (s.getD j default).id ≠ c.id := by
  unfold neighborIdxs buildGrid
  simp only [List.mem_flatMap, List.mem_filter, List.mem_range, decide_eq_true_eq]
  constructor
  · rintro ⟨d, hd, ⟨hj, hk⟩, hid⟩
    refine ⟨hj, ?_, ?_, hid⟩ <;>
    · rw [hk]
      simp only [OFFSETS, List.mem_cons, List.not_mem_nil, or_false] at hd
      rcases hd with h | h | h | h | h | h | h | h | h <;> subst h <;> simp
  · rintro ⟨hj, h1, h2, hid⟩
    rw [abs_le] at h1 h2
    refine ⟨((gridKey (s.getD j default).x (s.getD j default).y).1 -
        (gridKey c.x c.y).1,
        (gridKey (s.getD j default).x (s.getD j default).y).2 -
        (gridKey c.x c.y).2), ?_, ⟨hj, ?_⟩, hid⟩
    · simp only [OFFSETS, List.mem_cons, List.not_mem_nil, or_false,
        Prod.mk.injEq]
      omega
    · apply Prod.ext <;> simp

theorem floor_diff_le (x y s : ℝ) (hs : 0 < s) (h : |x - y| < s) :
    |⌊x / s⌋ - ⌊y / s⌋| ≤ 1 := by
  rw [abs_sub_lt_iff] at h
  rw [abs_sub_le_iff]
  constructor
  · have hxy : x / s ≤ y / s + 1 := by
      rw [div_add' _ _ _ (ne_of_gt hs)]
      exact le_of_lt ((div_lt_div_iff_of_pos_right hs).mpr (by linarith))
    have := Int.floor_le_floor hxy
    rw [Int.floor_add_one] at this
    omega
  · have hyx : y / s ≤ x / s + 1 := by
      rw [div_add' _ _ _ (ne_of_gt hs)]
      exact le_of_lt ((div_lt_div_iff_of_pos_right hs).mpr (by linarith))
    have := Int.floor_le_floor hyx
    rw [Int.floor_add_one] at this
    omega

/-- **C5.** `getNeighbors` returns exactly the inserted cells whose bucket
lies in the 3×3 block centered on the query cell's bucket, excluding cells
with the query cell's id; consequently any two cells with distinct ids
whose positions differ by less than the bucket size in both coordinates
appear in each other's neighbor lists. -/
theorem c5_grid_neighbors :
    (∀ (s : List Cell) (c : Cell) (j : ℕ),
      j ∈ neighborIdxs (buildGrid s) s c ↔
        j < s.length ∧
        |(gridKey (s.getD j default).x (s.getD j default).y).1 -
            (gridKey c.x c.y).1| ≤ 1 ∧
        |(gridKey (s.getD j default).x (s.getD j default).y).2 -
            (gridKey c.x c.y).2| ≤ 1 ∧
        (s.getD j default).id ≠ c.id) ∧
    (∀ (s : List Cell) (i j : ℕ), i < s.length → j < s.length →
      (s.getD i default).id ≠ (s.getD j default).id →
      |(s.getD i default).x - (s.getD j default).x| < SPATIAL_CELL_SIZE →
      |(s.getD i default).y - (s.getD j default).y| < SPATIAL_CELL_SIZE →
      j ∈ neighborIdxs (buildGrid s) s (s.getD i default) ∧
      i ∈ neighborIdxs (buildGrid s) s (s.getD j default)) := by
  have hs : (0 : ℝ) < SPATIAL_CELL_SIZE := by norm_num [SPATIAL_CELL_SIZE]
  refine ⟨mem_neighborIdxs_iff, ?_⟩
  intro s i j hi hj hid hx hy
  constructor
  · rw [mem_neighborIdxs_iff]
    exact ⟨hj,
      floor_diff_le _ _ _ hs (by rw [abs_sub_comm]; exact hx),
      floor_diff_le _ _ _ hs (by rw [abs_sub_comm]; exact hy),
      fun h => hid h.symm⟩
  · rw [mem_neighborIdxs_iff]
    exact ⟨hi, floor_diff_le _ _ _ hs hx, floor_diff_le _ _ _ hs hy, hid⟩

/-- Witness for C5: two cells 50 units apart (same bucket) with distinct
ids see each other as neighbors. -/
theorem c5_witness :
    1 ∈ neighborIdxs (buildGrid [cA, cB]) [cA, cB] ([cA, cB].getD 0 default) ∧
    0 ∈ neighborIdxs (buildGrid [cA, cB]) [cA, cB] ([cA, cB].getD 1 default) :=
  c5_grid_neighbors.2 [cA, cB] 0 1 (by norm_num) (by norm_num)
    (by show cA.id ≠ cB.id; simp [cA, cB])
    (by show |cA.x - cB.x| < SPATIAL_CELL_SIZE
        simp [cA, cB, SPATIAL_CELL_SIZE]
        norm_num)
    (by show |cA.y - cB.y| < SPATIAL_CELL_SIZE
        simp [cA, cB, SPATIAL_CELL_SIZE])

/-! ## C1: containment -/

theorem reclampStage_dist (o : Organ) (cr : ℝ) (c : Cell) (hcr : 0 ≤ cr) :
    distTo (reclampStage o cr c) o ≤ cr := by
  have hd : (0:ℝ) ≤ Real.sqrt ((c.x - o.x) * (c.x - o.x) +
      (c.y - o.y) * (c.y - o.y)) := Real.sqrt_nonneg _
  have hpos : (0:ℝ) < Real.sqrt ((c.x - o.x) * (c.x - o.x) +
      (c.y - o.y) * (c.y - o.y)) + 0.01 := by linarith
  have ht : (0:ℝ) ≤ cr / (Real.sqrt ((c.x - o.x) * (c.x - o.x) +
      (c.y - o.y) * (c.y - o.y)) + 0.01) := div_nonneg hcr hpos.le
  simp only [reclampStage]
  split_ifs with h
  · simp only [distTo]
    rw [show o.x + (c.x - o.x) / (Real.sqrt ((c.x - o.x) * (c.x - o.x) +
        (c.y - o.y) * (c.y - o.y)) + 0.01) * cr - o.x =
        (c.x - o.x) * (cr / (Real.sqrt ((c.x - o.x) * (c.x - o.x) +
        (c.y - o.y) * (c.y - o.y)) + 0.01)) by ring]
    rw [show o.y + (c.y - o.y) / (Real.sqrt ((c.x - o.x) * (c.x - o.x) +
        (c.y - o.y) * (c.y - o.y)) + 0.01) * cr - o.y =
        (c.y - o.y) * (cr / (Real.sqrt ((c.x - o.x) * (c.x - o.x) +
        (c.y - o.y) * (c.y - o.y)) + 0.01)) by ring]
    rw [show ∀ dx dy t : ℝ, dx * t * (dx * t) + dy * t * (dy * t) =
        t * t * (dx * dx + dy * dy) from fun dx dy t => by ring]
    rw [Real.sqrt_mul (mul_self_nonneg _), Real.sqrt_mul_self ht]
    rw [div_mul_eq_mul_div, div_le_iff₀ hpos]
    nlinarith
  · exact not_lt.mp h

theorem updateOneCell_dist (o : Organ) (grid : ℤ × ℤ → List ℕ)
    (noise : ℕ → ℝ) (k : ℕ) (s : List Cell) (dt : ℝ) (c : Cell) :
    distTo (updateOneCell o grid noise k s dt c) o ≤ containmentRadius o c := by
  unfold updateOneCell
  have hxy : ∀ z : Cell, distTo (wobbleStage dt (easeStage z)) o = distTo z o :=
    fun z => rfl
  rw [hxy]
  exact reclampStage_dist o _ _ (le_max_left 0 _)

theorem pass1Step_getD_ne (organs : List (String × Organ))
    (grid : ℤ × ℤ → List ℕ) (noise : ℕ → ℝ) (dt : ℝ) (sn : List Cell × ℕ)
    (j j' : ℕ) (h : j' ≠ j) :
    (pass1Step organs grid noise dt sn j).1.getD j' default =
      sn.1.getD j' default := by
  simp only [pass1Step]
  cases hl : List.lookup (sn.1.getD j default).chain organs with
  | none => simp [hl]
  | some o =>
      simp only [hl]
      exact getD_set_ne _ _ _ _ _ (Ne.symm h)

theorem pass1Step_length (organs : List (String × Organ))
    (grid : ℤ × ℤ → List ℕ) (noise : ℕ → ℝ) (dt : ℝ) (sn : List Cell × ℕ)
    (j : ℕ) :
    (pass1Step organs grid noise dt sn j).1.length = sn.1.length := by
  simp only [pass1Step]
  cases hl : List.lookup (sn.1.getD j default).chain organs with
  | none => simp [hl]
  | some o => simp [hl]

theorem pass1_fold_getD_ge (organs : List (String × Organ))
    (grid : ℤ × ℤ → List ℕ) (noise : ℕ → ℝ) (dt : ℝ) (cells : List Cell) :
    ∀ m j, m ≤ j →
    ((List.range m).foldl (pass1Step organs grid noise dt)
      (cells, 0)).1.getD j default = cells.getD j default := by
  intro m
  induction m with
  | zero => intro j _; rfl
  | succ m ih =>
      intro j hj
      rw [List.range_succ, List.foldl_append, List.foldl_cons, List.foldl_nil]
      rw [pass1Step_getD_ne organs grid noise dt _ m j (by omega)]
      exact ih j (by omega)

theorem pass1_fold_length (organs : List (String × Organ))
    (grid : ℤ × ℤ → List ℕ) (noise : ℕ → ℝ) (dt : ℝ) (cells : List Cell) :
    ∀ m, ((List.range m).foldl (pass1Step organs grid noise dt)
      (cells, 0)).1.length = cells.length := by
  intro m
  induction m with
  | zero => rfl
  | succ m ih =>
      rw [List.range_succ, List.foldl_append, List.foldl_cons, List.foldl_nil]
      rw [pass1Step_length]
      exact ih

theorem pass1_fold_contained (organs : List (String × Organ))
    (grid : ℤ × ℤ → List ℕ) (noise : ℕ → ℝ) (dt : ℝ) (cells : List Cell) :
    ∀ m i, i < m → i < cells.length →
    ∀ o : Organ, List.lookup (cells.getD i default).chain organs = some o →
    distTo (((List.range m).foldl (pass1Step organs grid noise dt)
        (cells, 0)).1.getD i default) o ≤
      containmentRadius o (cells.getD i default) := by
  intro m
  induction m with
  | zero => intro i h; exact absurd h (Nat.not_lt_zero i)
  | succ m ih =>
      intro i him hin o ho
      rw [List.range_succ, List.foldl_append, List.foldl_cons, List.foldl_nil]
      by_cases hi : i = m
      · subst hi
        have hcur : ((List.range i).foldl (pass1Step organs grid noise dt)
            (cells, 0)).1.getD i default = cells.getD i default :=
          pass1_fold_getD_ge organs grid noise dt cells i i le_rfl
        have hlen : ((List.range i).foldl (pass1Step organs grid noise dt)
            (cells, 0)).1.length = cells.length :=
          pass1_fold_length organs grid noise dt cells i
        simp only [pass1Step, hcur, ho]
        rw [getD_set_self _ _ _ _ (by rw [hlen]; exact hin)]
        exact updateOneCell_dist o grid noise _ _ dt (cells.getD i default)
      · rw [pass1Step_getD_ne organs grid noise dt _ m i hi]
        exact ih i (by omega) hin o ho

/-- **C1 (amended).** The containment radius is never negative, and at the
end of pass 1 — after the post-integration clamp, before radius easing is
accounted for and before the pass-2 repulsion — every cell whose chain has
an organ lies within the containment radius computed from the organ's
stepped radius and the cell's radius at the start of the step.  (At the
very end of `stepPhysics` the invariant can fail: radius easing shrinks
the containment radius and pass-2 repulsion moves cells, neither followed
by a re-clamp — see the counterexample.) -/
theorem c1_amended_containment :
    (∀ (o : Organ) (c : Cell), 0 ≤ containmentRadius o c) ∧
    (∀ (cells : List Cell) (organs : List (String × Organ)) (dt : ℝ)
      (noise : ℕ → ℝ) (i : ℕ), i < cells.length →
      ∀ o : Organ, List.lookup (cells.getD i default).chain
          (stepOrgans cells organs dt) = some o →
      distTo ((stepCells1 cells organs dt noise).getD i default) o ≤
        containmentRadius o (cells.getD i default)) := by
  constructor
  · intro o c; exact le_max_left 0 _
  · intro cells organs dt noise i hi o ho
    unfold stepCells1 pass1
    exact pass1_fold_contained (stepOrgans cells organs dt) (buildGrid cells)
      noise (min dt 0.033) cells cells.length i hi hi o ho

theorem stepOrgans_cC : stepOrgans [cC] [("X", org0)] 0 = [("X", org58)] := by
  unfold stepOrgans
  rw [min_eq_left (by norm_num : (0:ℝ) ≤ 0.033)]
  have h1 : recount [cC] [("X", org0)] = [("X", { org0 with cellCount := 1 })] :=
    rfl
  have h2 : updateRadii [("X", { org0 with cellCount := 1 })] =
      [("X", org58)] := by
    simp only [updateRadii, List.map_cons, List.map_nil, List.cons.injEq,
      Prod.mk.injEq, and_true, true_and]
    ext
    all_goals norm_num [org58, org0, ORGAN_BASE_RADIUS, ORGAN_GROWTH_PER_CELL,
      Real.sqrt_one]
  have h3 : gravity 0 [("X", org58)] = [("X", org58)] := by
    simp only [gravity, List.map_cons, List.map_nil, List.length_cons,
      List.length_nil, List.sum_cons, List.sum_nil, List.cons.injEq,
      Prod.mk.injEq, and_true, true_and]
    ext
    all_goals norm_num [org58, org0]
  have h4 : organRepulsion [("X", org58)] = [("X", org58)] := by
    unfold organRepulsion
    rw [show organPairs ([("X", org58)] : List (String × Organ)).length = []
      from rfl]
    rfl
  rw [h1, h2, h3, h4]

theorem neighborIdxs_single (c1 c : Cell) (h : c1.id = c.id) :
    neighborIdxs (buildGrid [c1]) [c1] c = [] := by
  rw [List.eq_nil_iff_forall_not_mem]
  intro j hj
  obtain ⟨hjl, _, _, hid⟩ := (mem_neighborIdxs_iff [c1] c j).mp hj
  have hj1 : j < 1 := hjl
  interval_cases j
  exact hid h

theorem updateOneCell_cC :
    updateOneCell org58 (buildGrid [cC]) halfNoise 0 [cC] 0 cC = cF := by
  have hcr : containmentRadius org58 cC = 44.3 := by
    unfold containmentRadius
    rw [show org58.radius * ORGAN_INNER_FACTOR - cC.radius * CELL_WOBBLE_FACTOR
        = 44.3 by
      norm_num [org58, org0, cC, cA, ORGAN_INNER_FACTOR, CELL_WOBBLE_FACTOR]]
    exact max_eq_right (by norm_num)
  have hs1 : containStage org58 0 cC = { cC with x := 443000 / 10001 } := by
    simp only [containStage]
    rw [hcr,
      show cC.x - org58.x = 100 by norm_num [cC, cA, org58, org0],
      show cC.y - org58.y = 0 by norm_num [cC, cA, org58, org0],
      show Real.sqrt ((100:ℝ) * 100 + 0 * 0) = 100 by
        rw [show (100:ℝ) * 100 + 0 * 0 = 100 * 100 by norm_num]
        exact Real.sqrt_mul_self (by norm_num)]
    norm_num [cC, cA, org58, org0]
  have hnb1 : neighborIdxs (buildGrid [cC]) [cC]
      { cC with x := 443000 / 10001 } = [] := neighborIdxs_single cC _ rfl
  have hs2 : repelStage (buildGrid [cC]) [cC] { cC with x := 443000 / 10001 } =
      { cC with x := 443000 / 10001 } := by
    unfold repelStage
    rw [hnb1]
    rfl
  have hs3 : noiseStage halfNoise 0 { cC with x := 443000 / 10001 } =
      { cC with x := 443000 / 10001 } := by
    unfold noiseStage halfNoise
    ext <;> norm_num [cC, cA, BROWNIAN_STRENGTH]
  have hs4 : dampStage { cC with x := 443000 / 10001 } =
      { cC with x := 443000 / 10001 } := by
    unfold dampStage
    ext <;> norm_num [cC, cA, DAMPING]
  have hs5 : integrateStage 0 { cC with x := 443000 / 10001 } =
      { cC with x := 443000 / 10001 } := by
    unfold integrateStage
    ext <;> norm_num [cC, cA]
  have hs6 : reclampStage org58 44.3 { cC with x := 443000 / 10001 } =
      { cC with x := 443000 / 10001 } := by
    simp only [reclampStage]
    rw [show ({ cC with x := 443000 / 10001 } : Cell).x - org58.x =
        443000 / 10001 by norm_num [cC, cA, org58, org0],
      show ({ cC with x := 443000 / 10001 } : Cell).y - org58.y = 0 by
        norm_num [cC, cA, org58, org0],
      show Real.sqrt ((443000 / 10001 : ℝ) * (443000 / 10001) + 0 * 0) =
          443000 / 10001 by
        rw [show (443000 / 10001 : ℝ) * (443000 / 10001) + 0 * 0 =
            (443000 / 10001) * (443000 / 10001) by ring]
        exact Real.sqrt_mul_self (by norm_num)]
    rw [if_neg (by norm_num : ¬((443000 / 10001 : ℝ) > 44.3))]
  have hs7 : easeStage { cC with x := 443000 / 10001 } = cF := by
    unfold easeStage
    ext <;> norm_num [cC, cA, cF]
  have hs8 : wobbleStage 0 cF = cF := by
    unfold wobbleStage
    ext <;> norm_num [cF, cC, cA]
  simp only [updateOneCell]
  rw [hs1, hs2, hs3, hs4, hs5, hcr, hs6, hs7, hs8]

theorem stepPhysics_cC :
    stepPhysics [cC] [("X", org0)] 0 halfNoise = ([cF], [("X", org58)]) := by
  have hc1 : stepCells1 [cC] [("X", org0)] 0 halfNoise = [cF] := by
    unfold stepCells1 pass1
    rw [min_eq_left (by norm_num : (0:ℝ) ≤ 0.033), stepOrgans_cC]
    show (List.foldl (pass1Step [("X", org58)] (buildGrid [cC]) halfNoise 0)
      ([cC], 0) [0]).1 = [cF]
    rw [List.foldl_cons, List.foldl_nil]
    simp only [pass1Step]
    rw [show List.lookup (([cC] : List Cell).getD 0 default).chain
        [("X", org58)] = some org58 from rfl]
    show ([cC] : List Cell).set 0
      (updateOneCell org58 (buildGrid [cC]) halfNoise 0 [cC] 0 cC) = [cF]
    rw [updateOneCell_cC]
    rfl
  have hp2 : pass2 [cF] = [cF] := by
    unfold pass2
    show List.foldl (pass2Step (buildGrid [cF])) [cF] [0] = [cF]
    rw [List.foldl_cons, List.foldl_nil]
    show ([cF] : List Cell).set 0
      ((neighborIdxs (buildGrid [cF]) [cF] cF).foldl
        (fun acc j => repel2From acc (([cF] : List Cell).getD j default)) cF) =
      [cF]
    rw [neighborIdxs_single cF cF rfl]
    rfl
  unfold stepPhysics
  rw [hc1, hp2, stepOrgans_cC]

/-- **C1 counterexample.** For a single cell of chain "X" at (100, 0) with
radius 4 and target radius 20, and the "X" organ at the origin, one
completed `stepPhysics` with `dt = 0` and all random draws 1/2 leaves the
cell at distance `443000/10001 ≈ 44.2956` from the organ center, but its
containment radius computed from its stepped (eased) radius is
`max 0 (58 * 0.85 - 4.8 * 1.25) = 43.3`: the end-of-step invariant fails
(by ≈ 1 unit, far beyond floating tolerance). -/
theorem c1_counterexample :
    ((stepPhysics [cC] [("X", org0)] 0 halfNoise).2.getD 0 default).1 =
      ((stepPhysics [cC] [("X", org0)] 0 halfNoise).1.getD 0 default).chain ∧
    ¬ (distTo ((stepPhysics [cC] [("X", org0)] 0 halfNoise).1.getD 0 default)
        (((stepPhysics [cC] [("X", org0)] 0 halfNoise).2.getD 0 default).2) ≤
      containmentRadius
        (((stepPhysics [cC] [("X", org0)] 0 halfNoise).2.getD 0 default).2)
        ((stepPhysics [cC] [("X", org0)] 0 halfNoise).1.getD 0 default)) := by
  have hd : distTo cF org58 = 443000 / 10001 := by
    unfold distTo
    rw [show cF.x - org58.x = 443000 / 10001 by
        norm_num [cF, cC, cA, org58, org0],
      show cF.y - org58.y = 0 by norm_num [cF, cC, cA, org58, org0],
      show (443000 / 10001 : ℝ) * (443000 / 10001) + 0 * 0 =
        (443000 / 10001) * (443000 / 10001) by ring]
    exact Real.sqrt_mul_self (by norm_num)
  have hc : containmentRadius org58 cF = 43.3 := by
    unfold containmentRadius
    rw [show org58.radius * ORGAN_INNER_FACTOR - cF.radius * CELL_WOBBLE_FACTOR
        = 43.3 by
      norm_num [org58, org0, cF, cC, cA, ORGAN_INNER_FACTOR, CELL_WOBBLE_FACTOR]]
    exact max_eq_right (by norm_num)
  rw [stepPhysics_cC]
  refine ⟨rfl, ?_⟩
  show ¬ (distTo cF org58 ≤ containmentRadius org58 cF)
  rw [hd, hc]
  norm_num

/-- Witness for the amended C1 at the counterexample input: at the end of
pass 1 the cell is inside the bound computed from its pre-step radius. -/
theorem c1_witness :
    0 ≤ containmentRadius org0 cA ∧
    distTo ((stepCells1 [cC] [("X", org0)] 0 halfNoise).getD 0 default)
        org58 ≤
      containmentRadius org58 (([cC] : List Cell).getD 0 default) :=
  ⟨c1_amended_containment.1 org0 cA,
   c1_amended_containment.2 [cC] [("X", org0)] 0 halfNoise 0 (by norm_num)
     org58 (by rw [stepOrgans_cC]; rfl)⟩

/-! ## C2: repulsion applied to exactly coincident cells -/

theorem repelFrom_coincident (a b : Cell) (hx : a.x = b.x) (hy : a.y = b.y) :
    repelFrom a b = a := by
  simp only [repelFrom]
  rw [show a.x - b.x = 0 by rw [hx]; ring, show a.y - b.y = 0 by rw [hy]; ring]
  split_ifs with h
  · ext <;> simp
  · rfl

theorem repel2From_coincident (a b : Cell) (hx : a.x = b.x) (hy : a.y = b.y) :
    repel2From a b = a := by
  simp only [repel2From]
  rw [show a.x - b.x = 0 by rw [hx]; ring, show a.y - b.y = 0 by rw [hy]; ring]
  split_ifs with h
  · ext <;> simp
  · rfl

theorem pass2_coincident_pair (a b : Cell) (hx : a.x = b.x) (hy : a.y = b.y) :
    pass2 [a, b] = [a, b] := by
  have hfold : ∀ c : Cell, c.x = a.x → c.y = a.y →
      ∀ L : List ℕ, (∀ j ∈ L, j < 2) →
      L.foldl (fun acc j => repel2From acc ([a, b].getD j default)) c = c := by
    intro c hcx hcy L hL
    refine foldl_inv_mem (P := fun acc => acc = c) L ?_ c rfl
    intro acc j hj hacc
    rw [hacc]
    have hj2 : j < 2 := hL j hj
    interval_cases j
    · exact repel2From_coincident c a hcx hcy
    · exact repel2From_coincident c b (hcx.trans hx) (hcy.trans hy)
  show List.foldl (pass2Step (buildGrid [a, b])) [a, b] [0, 1] = [a, b]
  rw [List.foldl_cons, List.foldl_cons, List.foldl_nil]
  have h0 : pass2Step (buildGrid [a, b]) [a, b] 0 = [a, b] := by
    show ([a, b] : List Cell).set 0
      ((neighborIdxs (buildGrid [a, b]) [a, b] a).foldl
        (fun acc j => repel2From acc ([a, b].getD j default)) a) = [a, b]
    rw [hfold a rfl rfl _
      (fun j hj => ((mem_neighborIdxs_iff [a, b] a j).mp hj).1)]
    rfl
  rw [h0]
  show ([a, b] : List Cell).set 1
    ((neighborIdxs (buildGrid [a, b]) [a, b] b).foldl
      (fun acc j => repel2From acc ([a, b].getD j default)) b) = [a, b]
  rw [hfold b hx.symm hy.symm _
    (fun j hj => ((mem_neighborIdxs_iff [a, b] b j).mp hj).1)]
  rfl

/-- **C2 counterexample.** Two cells at exactly the same coordinates with
nonzero radius: the repulsion step (pass 2, and the pass-1 repulsion body)
leaves both cells exactly unchanged, so the distance between their centers
stays 0 and is not strictly increased. -/
theorem c2_counterexample :
    cellSep cA cQ = 0 ∧
    pass2 [cA, cQ] = [cA, cQ] ∧
    ¬ (cellSep ((pass2 [cA, cQ]).getD 0 default)
        ((pass2 [cA, cQ]).getD 1 default) > cellSep cA cQ) ∧
    repelFrom cA cQ = cA := by
  have hp : pass2 [cA, cQ] = [cA, cQ] := pass2_coincident_pair cA cQ rfl rfl
  refine ⟨?_, hp, ?_, repelFrom_coincident cA cQ rfl rfl⟩
  · show Real.sqrt ((cA.x - cQ.x) * (cA.x - cQ.x) +
      (cA.y - cQ.y) * (cA.y - cQ.y)) = 0
    simp [cA, cQ]
  · rw [hp]
    exact lt_irrefl (cellSep cA cQ)

/-- **C2 (amended).** One application of the cell-cell repulsion step to
two cells at exactly the same coordinates produces no NaN — every field is
well-defined and in fact unchanged, because the separation direction
`dx/dist, dy/dist` is the zero vector — but the separation is NOT
increased: it stays exactly 0 (coincident cells only separate through the
Brownian noise term of the full step). -/
theorem c2_amended_coincident (a b : Cell) (hx : a.x = b.x) (hy : a.y = b.y) :
    repelFrom a b = a ∧ repel2From a b = a ∧ pass2 [a, b] = [a, b] ∧
    cellSep a b = 0 :=
  ⟨repelFrom_coincident a b hx hy, repel2From_coincident a b hx hy,
   pass2_coincident_pair a b hx hy, by
     show Real.sqrt ((a.x - b.x) * (a.x - b.x) +
       (a.y - b.y) * (a.y - b.y)) = 0
     rw [hx, hy]
     simp⟩

/-- Witness for the amended C2 at a concrete coincident pair. -/
theorem c2_witness :
    repelFrom cA cQ = cA ∧ repel2From cA cQ = cA ∧
    pass2 [cA, cQ] = [cA, cQ] ∧ cellSep cA cQ = 0 :=
  c2_amended_coincident cA cQ rfl rfl

/-! ## C4: delta-time capping -/

/-- **C4.** `stepPhysics` uses `cappedDt = min dt 0.033` throughout, so for
any `dt ≥ 0.033` the step produces exactly the same state as a step with
`dt = 0.033` given the same random draws. -/
theorem c4_dt_capped (cells : List Cell) (organs : List (String × Organ))
    (noise : ℕ → ℝ) (dt : ℝ) (h : 0.033 ≤ dt) :
    stepPhysics cells organs dt noise = stepPhysics cells organs 0.033 noise := by
  unfold stepPhysics stepCells1 stepOrgans
  rw [min_eq_right h, min_self]

/-- Witness for C4: a stalled-tab delta of 5 seconds acts exactly like
0.033 seconds. -/
theorem c4_witness :
    (0.033 : ℝ) ≤ 5 ∧
    stepPhysics [] [] 5 (fun _ => 0) = stepPhysics [] [] 0.033 (fun _ => 0) :=
  ⟨by norm_num, c4_dt_capped [] [] (fun _ => 0) 5 (by norm_num)⟩

/-! ## C8: radius easing -/

/-- **C8.** Each per-cell update moves the radius exactly 5% of the way to
`targetRadius`: the distance to the target shrinks by the factor 0.95, and
the new radius lies between the old radius and the target (never
overshooting), so from radius 2 toward target 10 the radius converges
monotonically. -/
theorem c8_radius_easing (o : Organ) (grid : ℤ × ℤ → List ℕ)
    (noise : ℕ → ℝ) (k : ℕ) (s : List Cell) (dt : ℝ) (c : Cell) :
    (updateOneCell o grid noise k s dt c).radius =
      c.radius + (c.targetRadius - c.radius) * 0.05 ∧
    |(updateOneCell o grid noise k s dt c).radius - c.targetRadius| =
      0.95 * |c.radius - c.targetRadius| ∧
    (c.radius ≤ c.targetRadius →
      c.radius ≤ (updateOneCell o grid noise k s dt c).radius ∧
      (updateOneCell o grid noise k s dt c).radius ≤ c.targetRadius) ∧
    (c.targetRadius ≤ c.radius →
      c.targetRadius ≤ (updateOneCell o grid noise k s dt c).radius ∧
      (updateOneCell o grid noise k s dt c).radius ≤ c.radius) := by
  refine ⟨updateOneCell_radius o grid noise k s dt c, ?_, ?_, ?_⟩ <;>
    rw [updateOneCell_radius o grid noise k s dt c]
  · have he : c.radius + (c.targetRadius - c.radius) * 0.05 - c.targetRadius =
        0.95 * (c.radius - c.targetRadius) := by ring
    rw [he, abs_mul, abs_of_nonneg (by norm_num : (0:ℝ) ≤ 0.95)]
  · intro h
    constructor <;> nlinarith
  · intro h
    constructor <;> nlinarith

/-! ## Preservation lemmas for the organ phases and the two passes -/

theorem map_set2_frame {γ : Type*} (f : String × Organ → γ)
    (hf : ∀ (k : String) (o : Organ) (x' y' : ℝ),
      f (k, { o with x := x', y := y' }) = f (k, o))
    (l : List (String × Organ)) (i j : ℕ) (hij : i ≠ j) (x1 y1 x2 y2 : ℝ) :
    ((l.set i ((l.getD i default).1,
        { (l.getD i default).2 with x := x1, y := y1 })).set j
      ((l.getD j default).1,
        { (l.getD j default).2 with x := x2, y := y2 })).map f = l.map f := by
  have h2 : f ((l.getD j default).1,
      { (l.getD j default).2 with x := x2, y := y2 }) =
      f ((l.set i ((l.getD i default).1,
        { (l.getD i default).2 with x := x1, y := y1 })).getD j default) := by
    rw [getD_set_ne _ _ _ _ _ hij]
    exact hf _ _ _ _
  rw [map_set_frame f _ j _ default h2]
  exact map_set_frame f l i _ default (hf _ _ _ _)

theorem pairStep_map {γ : Type*} (f : String × Organ → γ)
    (hf : ∀ (k : String) (o : Organ) (x' y' : ℝ),
      f (k, { o with x := x', y := y' }) = f (k, o))
    (l : List (String × Organ)) (ij : ℕ × ℕ) (hij : ij.1 ≠ ij.2) :
    (pairStep l ij).map f = l.map f := by
  simp only [pairStep]
  split_ifs with h
  · exact map_set2_frame f hf l ij.1 ij.2 hij _ _ _ _
  · rfl

theorem organRepulsion_map {γ : Type*} (f : String × Organ → γ)
    (hf : ∀ (k : String) (o : Organ) (x' y' : ℝ),
      f (k, { o with x := x', y := y' }) = f (k, o))
    (l : List (String × Organ)) :
    (organRepulsion l).map f = l.map f := by
  unfold organRepulsion
  exact foldl_inv_mem (P := fun l' => l'.map f = l.map f) (organPairs l.length)
    (fun a ij hij ha =>
      (pairStep_map f hf a ij (Nat.ne_of_lt (mem_organPairs_lt _ _ hij))).trans ha)
    l rfl

theorem gravity_map {γ : Type*} (f : String × Organ → γ)
    (hf : ∀ (k : String) (o : Organ) (x' y' : ℝ),
      f (k, { o with x := x', y := y' }) = f (k, o))
    (dt : ℝ) (l : List (String × Organ)) :
    (gravity dt l).map f = l.map f := by
  unfold gravity
  rw [List.map_map]
  exact map_congr_mem l _ f fun p _ => hf _ _ _ _

theorem recount_map_organFrame (cells : List Cell)
    (organs : List (String × Organ)) :
    (recount cells organs).map organFrame = organs.map organFrame := by
  unfold recount
  rw [List.map_map]
  exact map_congr_mem organs _ organFrame fun p _ => rfl

theorem updateRadii_map_organFrame (organs : List (String × Organ)) :
    (updateRadii organs).map organFrame = organs.map organFrame := by
  unfold updateRadii
  rw [List.map_map]
  exact map_congr_mem organs _ organFrame fun p _ => rfl

theorem pass1Step_map (organs : List (String × Organ))
    (grid : ℤ × ℤ → List ℕ) (noise : ℕ → ℝ) (dt : ℝ)
    (sn : List Cell × ℕ) (i : ℕ) :
    (pass1Step organs grid noise dt sn i).1.map cellFrame =
      sn.1.map cellFrame := by
  simp only [pass1Step]
  cases h : List.lookup (sn.1.getD i default).chain organs with
  | none => simp [h]
  | some o =>
      simp only [h]
      exact map_set_frame _ _ _ _ default
        (updateOneCell_frame o grid noise sn.2 sn.1 dt (sn.1.getD i default))

theorem pass1_map (organs : List (String × Organ)) (grid : ℤ × ℤ → List ℕ)
    (noise : ℕ → ℝ) (dt : ℝ) (s : List Cell) :
    (pass1 organs grid noise dt s).map cellFrame = s.map cellFrame := by
  unfold pass1
  exact foldl_inv
    (P := fun sn : List Cell × ℕ => sn.1.map cellFrame = s.map cellFrame)
    (fun a b ha => (pass1Step_map organs grid noise dt a b).trans ha)
    (List.range s.length) (s, 0) rfl

theorem repel2From_frame (c other : Cell) :
    cellFrame (repel2From c other) = cellFrame c := by
  simp only [repel2From, cellFrame]
  split_ifs <;> rfl

theorem pass2Step_map (grid : ℤ × ℤ → List ℕ) (s : List Cell) (i : ℕ) :
    (pass2Step grid s i).map cellFrame = s.map cellFrame := by
  unfold pass2Step
  exact map_set_frame _ _ _ _ default
    (foldl_inv (P := fun a : Cell => cellFrame a = cellFrame (s.getD i default))
      (fun a b ha => (repel2From_frame a (s.getD b default)).trans ha)
      _ _ rfl)

theorem pass2_map (s : List Cell) : (pass2 s).map cellFrame = s.map cellFrame := by
  unfold pass2
  exact foldl_inv (P := fun s' : List Cell => s'.map cellFrame = s.map cellFrame)
    (fun a b ha => (pass2Step_map (buildGrid s) a b).trans ha)
    (List.range s.length) s rfl

/-! ## C10: frame conditions of `stepPhysics` -/

/-- **C10.** A step mutates only position, velocity, radius and wobble
phase of cells, and only position, radius and cellCount of organs; every
other field, and the shape of both collections (length, order, keys), is
unchanged. -/
theorem c10_frame (cells : List Cell) (organs : List (String × Organ))
    (dt : ℝ) (noise : ℕ → ℝ) :
    (stepPhysics cells organs dt noise).1.map cellFrame =
      cells.map cellFrame ∧
    (stepPhysics cells organs dt noise).2.map organFrame =
      organs.map organFrame := by
  constructor
  · show (pass2 (stepCells1 cells organs dt noise)).map cellFrame = _
    rw [pass2_map]
    unfold stepCells1
    rw [pass1_map]
  · show (stepOrgans cells organs dt).map organFrame = _
    unfold stepOrgans
    rw [organRepulsion_map organFrame (fun _ _ _ _ => rfl),
      gravity_map organFrame (fun _ _ _ _ => rfl),
      updateRadii_map_organFrame, recount_map_organFrame]

/-! ## C3: organ radius growth law -/

/-- **C3.** After any step, every organ's radius is
`ORGAN_BASE_RADIUS + ORGAN_GROWTH_PER_CELL * sqrt(memberCount)` where
`memberCount` is the exact recount of cells whose `chain` equals that
organ's key. -/
theorem c3_organ_radius_law (cells : List Cell)
    (organs : List (String × Organ)) (dt : ℝ) (noise : ℕ → ℝ) (i : ℕ)
    (hi : i < organs.length) :
    ((stepPhysics cells organs dt noise).2.getD i default).2.radius =
      ORGAN_BASE_RADIUS + ORGAN_GROWTH_PER_CELL *
        Real.sqrt ((cells.filter fun c =>
          c.chain = (organs.getD i default).1).length) := by
  have hmap : (stepOrgans cells organs dt).map organFixed =
      (updateRadii (recount cells organs)).map organFixed := by
    unfold stepOrgans
    rw [organRepulsion_map organFixed (fun _ _ _ _ => rfl),
      gravity_map organFixed (fun _ _ _ _ => rfl)]
  have hlen2 : (updateRadii (recount cells organs)).length = organs.length := by
    unfold updateRadii recount
    simp
  have hlen1 : (stepOrgans cells organs dt).length = organs.length := by
    have := congrArg List.length hmap
    simpa [hlen2] using this
  have hget : organFixed ((stepOrgans cells organs dt).getD i default) =
      organFixed ((updateRadii (recount cells organs)).getD i default) := by
    have h1 := getD_map_in organFixed (stepOrgans cells organs dt) i
      (organFixed default) default (by omega)
    have h2 := getD_map_in organFixed (updateRadii (recount cells organs)) i
      (organFixed default) default (by omega)
    rw [← h1, ← h2, hmap]
  have hradius : ((stepOrgans cells organs dt).getD i default).2.radius =
      ((updateRadii (recount cells organs)).getD i default).2.radius :=
    congrArg (fun t => t.2.2.2.2.2.1) hget
  have hcomp : (updateRadii (recount cells organs)).getD i default =
      ((organs.getD i default).1,
        { (organs.getD i default).2 with
            cellCount := (cells.filter fun c =>
              c.chain = (organs.getD i default).1).length,
            radius := ORGAN_BASE_RADIUS + ORGAN_GROWTH_PER_CELL *
              Real.sqrt ((cells.filter fun c =>
                c.chain = (organs.getD i default).1).length) }) := by
    unfold updateRadii recount
    rw [List.map_map]
    exact getD_map_in _ organs i default default hi
  show ((stepOrgans cells organs dt).getD i default).2.radius = _
  rw [hradius, hcomp]

/-- Witness for C3: one "X" cell, one "X" organ. -/
theorem c3_witness :
    ((stepPhysics [cA] [("X", org0)] 0 (fun _ => 0)).2.getD 0
        default).2.radius =
      ORGAN_BASE_RADIUS + ORGAN_GROWTH_PER_CELL *
        Real.sqrt (([cA].filter fun c =>
          c.chain = ([("X", org0)].getD 0 default).1).length) :=
  c3_organ_radius_law [cA] [("X", org0)] 0 (fun _ => 0) 0 (by norm_num)

/-! ## C9: division safety -/

theorem allPos_append {L1 L2 : List ℝ} (h1 : ∀ d ∈ L1, 0 < d)
    (h2 : ∀ d ∈ L2, 0 < d) : ∀ d ∈ L1 ++ L2, 0 < d := by
  intro d hd
  rcases List.mem_append.mp hd with h | h
  · exact h1 d h
  · exact h2 d h

theorem sqrt_add_pos (x : ℝ) : 0 < Real.sqrt x + 0.01 := by positivity

theorem keyDenoms_pos : ∀ d ∈ keyDenoms, 0 < d := by
  intro d hd
  simp only [keyDenoms, List.mem_cons, List.not_mem_nil, or_false] at hd
  rcases hd with rfl | rfl <;> norm_num [SPATIAL_CELL_SIZE]

theorem buildGridDenoms_pos (s : List Cell) :
    ∀ d ∈ buildGridDenoms s, 0 < d := by
  intro d hd
  simp only [buildGridDenoms, List.mem_flatMap] at hd
  obtain ⟨_, _, hk⟩ := hd
  exact keyDenoms_pos d hk

theorem gravityDenoms_pos (organs : List (String × Organ))
    (h : 0 < organs.length) : ∀ d ∈ gravityDenoms organs, 0 < d := by
  intro d hd
  simp only [gravityDenoms, List.mem_cons, List.mem_flatMap,
    List.mem_cons, List.not_mem_nil, or_false] at hd
  rcases hd with rfl | rfl | ⟨p, _, rfl | rfl⟩
  · exact_mod_cast h
  · exact_mod_cast h
  · exact sqrt_add_pos _
  · exact sqrt_add_pos _

theorem pairStepDenoms_pos (l : List (String × Organ)) (ij : ℕ × ℕ) :
    ∀ d ∈ pairStepDenoms l ij, 0 < d := by
  intro d hd
  simp only [pairStepDenoms] at hd
  split_ifs at hd with h
  · simp only [List.mem_cons, List.not_mem_nil, or_false] at hd
    rcases hd with rfl | rfl <;> exact sqrt_add_pos _
  · simp at hd

theorem organRepulsionDenoms_pos (organs : List (String × Organ)) :
    ∀ d ∈ organRepulsionDenoms organs, 0 < d := by
  unfold organRepulsionDenoms
  exact (foldl_inv
    (P := fun acc : List (String × Organ) × List ℝ => ∀ d ∈ acc.2, 0 < d)
    (fun acc ij ha => allPos_append ha (pairStepDenoms_pos acc.1 ij))
    (organPairs organs.length) (organs, []) (by simp))

theorem repelFromDenoms_pos (c other : Cell) :
    ∀ d ∈ repelFromDenoms c other, 0 < d := by
  intro d hd
  simp only [repelFromDenoms] at hd
  split_ifs at hd with h
  · simp only [List.mem_cons, List.not_mem_nil, or_false] at hd
    rcases hd with rfl | rfl <;> exact sqrt_add_pos _
  · simp at hd

theorem repel2FromDenoms_pos (c other : Cell) :
    ∀ d ∈ repel2FromDenoms c other, 0 < d := by
  intro d hd
  simp only [repel2FromDenoms] at hd
  split_ifs at hd with h
  · simp only [List.mem_cons, List.not_mem_nil, or_false] at hd
    rcases hd with rfl | rfl <;> exact sqrt_add_pos _
  · simp at hd

theorem repelStageDenoms_pos (grid : ℤ × ℤ → List ℕ) (s : List Cell)
    (c : Cell) : ∀ d ∈ repelStageDenoms grid s c, 0 < d := by
  unfold repelStageDenoms
  refine allPos_append keyDenoms_pos ?_
  exact (foldl_inv
    (P := fun acc : Cell × List ℝ => ∀ d ∈ acc.2, 0 < d)
    (fun acc j ha => allPos_append ha
      (repelFromDenoms_pos acc.1 (s.getD j default)))
    (neighborIdxs grid s c) (c, []) (by simp))

theorem containStageDenoms_pos (organ : Organ) (c : Cell) :
    ∀ d ∈ containStageDenoms organ c, 0 < d := by
  intro d hd
  simp only [containStageDenoms, List.mem_append, List.mem_cons,
    List.not_mem_nil, or_false] at hd
  have hcr : (0:ℝ) ≤ containmentRadius organ c := le_max_left 0 _
  rcases hd with hd | hd
  · split_ifs at hd with h
    · simp only [List.mem_cons, List.not_mem_nil, or_false] at hd
      rcases hd with rfl | rfl <;> exact sqrt_add_pos _
    · simp at hd
  · rcases hd with rfl | rfl | rfl
    · linarith
    · exact sqrt_add_pos _
    · exact sqrt_add_pos _

theorem reclampStageDenoms_pos (organ : Organ) (cr : ℝ) (c : Cell) :
    ∀ d ∈ reclampStageDenoms organ cr c, 0 < d := by
  intro d hd
  simp only [reclampStageDenoms] at hd
  split_ifs at hd with h
  · simp only [List.mem_cons, List.not_mem_nil, or_false] at hd
    rcases hd with rfl | rfl <;> exact sqrt_add_pos _
  · simp at hd

theorem updateOneCellDenoms_pos (organ : Organ) (grid : ℤ × ℤ → List ℕ)
    (noise : ℕ → ℝ) (k : ℕ) (s : List Cell) (dt : ℝ) (c : Cell) :
    ∀ d ∈ updateOneCellDenoms organ grid noise k s dt c, 0 < d := by
  unfold updateOneCellDenoms
  exact allPos_append (allPos_append (containStageDenoms_pos organ c)
      (repelStageDenoms_pos grid s _))
    (reclampStageDenoms_pos organ _ _)

theorem pass1Denoms_pos (organs : List (String × Organ))
    (grid : ℤ × ℤ → List ℕ) (noise : ℕ → ℝ) (dt : ℝ) (cells : List Cell) :
    ∀ d ∈ pass1Denoms organs grid noise dt cells, 0 < d := by
  unfold pass1Denoms
  refine (foldl_inv
    (P := fun acc : (List Cell × ℕ) × List ℝ => ∀ d ∈ acc.2, 0 < d)
    (fun acc i ha => ?_) (List.range cells.length) ((cells, 0), []) (by simp))
  refine allPos_append ha ?_
  cases hl : List.lookup (acc.1.1.getD i default).chain organs with
  | none => simp
  | some organ =>
      exact updateOneCellDenoms_pos organ grid noise acc.1.2 acc.1.1 dt
        (acc.1.1.getD i default)

theorem pass2StepDenoms_pos (grid : ℤ × ℤ → List ℕ) (s : List Cell) (i : ℕ) :
    ∀ d ∈ pass2StepDenoms grid s i, 0 < d := by
  unfold pass2StepDenoms
  refine allPos_append keyDenoms_pos ?_
  exact (foldl_inv
    (P := fun acc : Cell × List ℝ => ∀ d ∈ acc.2, 0 < d)
    (fun acc j ha => allPos_append ha
      (repel2FromDenoms_pos acc.1 (s.getD j default)))
    (neighborIdxs grid s (s.getD i default)) (s.getD i default, []) (by simp))

theorem pass2Denoms_pos (s : List Cell) : ∀ d ∈ pass2Denoms s, 0 < d := by
  unfold pass2Denoms
  refine allPos_append (buildGridDenoms_pos s) ?_
  exact (foldl_inv
    (P := fun acc : List Cell × List ℝ => ∀ d ∈ acc.2, 0 < d)
    (fun acc i ha => allPos_append ha (pass2StepDenoms_pos (buildGrid s) acc.1 i))
    (List.range s.length) (s, []) (by simp))

theorem stepDenoms_pos (cells : List Cell) (organs : List (String × Organ))
    (dt : ℝ) (noise : ℕ → ℝ) (h : organs ≠ []) :
    ∀ d ∈ stepDenoms cells organs dt noise, 0 < d := by
  unfold stepDenoms
  have hlen : 0 < (updateRadii (recount cells organs)).length := by
    simp only [updateRadii, recount, List.length_map]
    exact List.length_pos.mpr h
  exact allPos_append (allPos_append (allPos_append (allPos_append
      (gravityDenoms_pos _ hlen) (organRepulsionDenoms_pos _))
      (buildGridDenoms_pos cells))
      (pass1Denoms_pos _ _ noise _ cells))
    (pass2Denoms_pos _)

/-- **C9 counterexample.** With an empty organ map (and no cells) the
centroid phase's `cx /= organList.length` divides by zero: 0 is among the
denominators `stepPhysics` uses, so "never divides by zero for every input
state" fails.  (No NaN is ever stored — the per-organ loop body never runs
— but the division by zero does occur.) -/
theorem c9_counterexample : (0:ℝ) ∈ stepDenoms [] [] 0 (fun _ => 0) := by
  have h : stepDenoms [] [] 0 (fun _ => 0) =
      [((0:ℕ) : ℝ), ((0:ℕ) : ℝ)] := rfl
  rw [h]
  simp

/-- **C9 (amended).** Provided the organ map is nonempty (the centroid
computation divides by the number of organs, which is zero for an empty
map), `stepPhysics` never divides by zero: every distance denominator is
`sqrt(...) + 0.01 ≥ 0.01`, the inward-pull denominator is
`containmentRadius + 0.01 ≥ 0.01`, and the grid-key denominator is the
constant bucket size — so no NaN can arise even in zero-distance
degenerate states. -/
theorem c9_amended_no_div_zero (cells : List Cell)
    (organs : List (String × Organ)) (dt : ℝ) (noise : ℕ → ℝ)
    (h : organs ≠ []) : (0:ℝ) ∉ stepDenoms cells organs dt noise :=
  fun hmem => absurd (stepDenoms_pos cells organs dt noise h 0 hmem)
    (lt_irrefl 0)

/-- Witness for the amended C9: one organ, no cells, a stalled-tab delta. -/
theorem c9_witness : (0:ℝ) ∉ stepDenoms [] [("X", org0)] 5 halfNoise :=
  c9_amended_no_div_zero [] [("X", org0)] 5 halfNoise (by simp)

/-- Witness for C8: a cell with radius 2 and target 10 eases to 2.4,
strictly between 2 and 10. -/
theorem c8_witness :
    (updateOneCell default (fun _ => []) (fun _ => 0) 0 [] 0
      { (default : Cell) with radius := 2, targetRadius := 10 }).radius =
      2 + (10 - 2) * 0.05 ∧
    (2 : ℝ) ≤ (updateOneCell default (fun _ => []) (fun _ => 0) 0 [] 0
      { (default : Cell) with radius := 2, targetRadius := 10 }).radius ∧
    (updateOneCell default (fun _ => []) (fun _ => 0) 0 [] 0
      { (default : Cell) with radius := 2, targetRadius := 10 }).radius ≤ 10 :=
  ⟨(c8_radius_easing default (fun _ => []) (fun _ => 0) 0 [] 0
      { (default : Cell) with radius := 2, targetRadius := 10 }).1,
   ((c8_radius_easing default (fun _ => []) (fun _ => 0) 0 [] 0
      { (default : Cell) with radius := 2, targetRadius := 10 }).2.2.1
      (by norm_num)).1,
   ((c8_radius_easing default (fun _ => []) (fun _ => 0) 0 [] 0
      { (default : Cell) with radius := 2, targetRadius := 10 }).2.2.1
      (by norm_num)).2⟩

end DexPair
